import Mathlib

/-!
Shallow embedding of the xfactor-daily backend's lesson-progress and
gamification state machine (`src/routes/lessons.js`) and of the protected
material access gateway (`src/routes/lessons.js` material endpoints,
`src/config/cloudinary.js`).

JavaScript numbers are modelled as rationals (`ℚ`), timestamps as natural
numbers of milliseconds since the epoch, calendar dates as natural day
numbers (`t / 86400000`, matching `toISOString().split('T')[0]` up to the
bijection between day numbers and date strings).  Fields that may be
`undefined` in the JSON progress blobs are modelled as `Option`; the
JavaScript `a || b` idiom is modelled by truthiness helpers (`0`, `""` and
`undefined` are falsy).
-/

namespace XFactor

/-- JS `x || d` for a possibly-undefined number `x`: `undefined` and `0` are
falsy. -/
def qOr (x : Option ℚ) (d : ℚ) : ℚ :=
  match x with
  | some v => if v = 0 then d else v
  | none => d

/-- JS `x || y` where both sides are possibly-undefined numbers
(e.g. `rating || lessonProgress.rating`). -/
def qOrOpt (new old : Option ℚ) : Option ℚ :=
  match new with
  | some v => if v = 0 then old else some v
  | none => old

/-- JS `x || y` where both sides are possibly-undefined strings
(the empty string is falsy). -/
def sOrOpt (new old : Option String) : Option String :=
  match new with
  | some s => if s = "" then old else some s
  | none => old

/-- Milliseconds per calendar day. -/
def msPerDay : Nat := 86400000

/-- The calendar day of a millisecond timestamp: the model of
`new Date(t).toISOString().split('T')[0]`. -/
def dayOf (t : Nat) : Nat := t / msPerDay

/-- `status` values stored in a lesson progress record. -/
inductive LessonStatus where
  | not_started
  | in_progress
  | completed
deriving DecidableEq

/-- One per-lesson progress record inside the user's `lesson_progress` JSONB
blob.  Every field may be absent (`{}` is a valid record); watch-session
payloads are abstracted to their `session_id`. -/
structure LessonProgress where
  status : Option LessonStatus := none
  started_at : Option Nat := none
  last_watched_position : Option ℚ := none
  total_watch_time : Option ℚ := none
  completion_percentage : Option ℚ := none
  completed_at : Option Nat := none
  final_watch_time : Option ℚ := none
  rating : Option ℚ := none
  feedback : Option String := none
  session_summary : Option String := none
  watch_sessions : List String := []
deriving DecidableEq

/-- The user's `lesson_progress` object: an association list keyed by lesson
id (JS object keys are unique). -/
abbrev ProgressMap := List (String × LessonProgress)

/-- `currentProgress[lessonId] || {}`. -/
def getProgress (m : ProgressMap) (k : String) : LessonProgress :=
  match m.find? (fun e => e.1 == k) with
  | some e => e.2
  | none => {}

/-- `{...currentProgress, [lessonId]: updatedProgress}`: replace the entry
in place when the key is present, otherwise append it. -/
def setProgress : ProgressMap → String → LessonProgress → ProgressMap
  | [], k, v => [(k, v)]
  | e :: rest, k, v =>
    if e.1 == k then (k, v) :: rest else e :: setProgress rest k v

/-- The user row fields read and written by the lesson routes
(`users` table: `lesson_progress`, streak/badge stats,
`last_activity_date`).  The SQL schema defaults the numeric stats to `0`
and `badges_earned` to `{}`; `last_activity_date` is nullable. -/
structure UserState where
  lesson_progress : ProgressMap := []
  current_streak : Nat := 0
  longest_streak : Nat := 0
  total_lessons_completed : Nat := 0
  badges_earned : List String := []
  last_activity_date : Option Nat := none
deriving DecidableEq

/-! ## POST /api/lessons/:id/start -/

/-- Response payload of the start endpoint (title and timestamps echoed
from inputs are omitted). -/
structure StartResponse where
  session_id : String
  lesson_id : String
  resume_position : ℚ
deriving DecidableEq

/-- The state mutation of `POST /:id/start` after the lesson-existence
check.  `sessionId` is the resolved session id
(`session_id || generated`). -/
def startLesson (now : Nat) (lessonId sessionId : String) (u : UserState) :
    UserState × StartResponse :=
  let lessonProgress := getProgress u.lesson_progress lessonId
  let updatedProgress : LessonProgress :=
    { lessonProgress with
      status := if lessonProgress.status == some .completed then
          some .completed
        else some .in_progress,
      started_at := match lessonProgress.started_at with
        | some t => some t
        | none => some now,
      last_watched_position := some (qOr lessonProgress.last_watched_position 0),
      total_watch_time := some (qOr lessonProgress.total_watch_time 0),
      completion_percentage := some (qOr lessonProgress.completion_percentage 0),
      watch_sessions := lessonProgress.watch_sessions ++ [sessionId] }
  let u' : UserState :=
    { u with
      lesson_progress := setProgress u.lesson_progress lessonId updatedProgress,
      last_activity_date := some (dayOf now) }
  (u', { session_id := sessionId, lesson_id := lessonId,
         resume_position := qOr lessonProgress.last_watched_position 0 })

/-! ## PUT /api/lessons/:id/progress -/

/-- Request body of the progress-update endpoint.  `none` models an absent
or non-numeric field; `watch_session_data` is abstracted to its
`session_id`. -/
structure ProgressRequest where
  last_watched_position : Option ℚ := none
  total_watch_time : Option ℚ := none
  completion_percentage : Option ℚ := none
  watch_session_data : Option String := none
deriving DecidableEq

/-- The `updatedProgress` record construction of `PUT /:id/progress`, for a
request that passed the numeric validation (`lwp`, `twt` are the two
required numbers).  Note the stored `status` is derived from the *raw
incoming* `completion_percentage` (`completion_percentage >= 100`, which is
false for `undefined`), not from the merged value. -/
def mergeProgress (lwp twt : ℚ) (cp : Option ℚ) (wsd : Option String)
    (p : LessonProgress) : LessonProgress :=
  { p with
    status := some (match cp with
      | some v => if 100 ≤ v then .completed else .in_progress
      | none => .in_progress),
    last_watched_position := some (max lwp (qOr p.last_watched_position 0)),
    total_watch_time := some (max twt (qOr p.total_watch_time 0)),
    completion_percentage :=
      some (min (max (qOr cp 0) (qOr p.completion_percentage 0)) 100),
    watch_sessions := match wsd with
      | some sid =>
        if p.watch_sessions.contains sid then p.watch_sessions
        else p.watch_sessions ++ [sid]
      | none => p.watch_sessions }

/-- Response payload of the progress-update endpoint. -/
structure ProgressResponse where
  lesson_id : String
  status : LessonStatus
  last_watched_position : ℚ
  total_watch_time : ℚ
  completion_percentage : ℚ
deriving DecidableEq

/-- The state mutation of `PUT /:id/progress` after validation succeeded. -/
def applyProgressUpdate (now : Nat) (lessonId : String) (lwp twt : ℚ)
    (cp : Option ℚ) (wsd : Option String) (u : UserState) :
    UserState × ProgressResponse :=
  let p := getProgress u.lesson_progress lessonId
  let updatedProgress := mergeProgress lwp twt cp wsd p
  let u' : UserState :=
    { u with
      lesson_progress := setProgress u.lesson_progress lessonId updatedProgress,
      last_activity_date := some (dayOf now) }
  (u', { lesson_id := lessonId,
         status := (updatedProgress.status).getD .in_progress,
         last_watched_position := max lwp (qOr p.last_watched_position 0),
         total_watch_time := max twt (qOr p.total_watch_time 0),
         completion_percentage :=
           min (max (qOr cp 0) (qOr p.completion_percentage 0)) 100 })

/-- Error outcomes of the lesson lifecycle routes. -/
inductive ApiError where
  | notFound
  | invalidData
deriving DecidableEq

/-- `PUT /:id/progress` including its validation: both
`last_watched_position` and `total_watch_time` must be numbers, otherwise
the whole request is rejected with a 400 and no state is written. -/
def updateProgress (now : Nat) (lessonId : String) (req : ProgressRequest)
    (u : UserState) : Except ApiError (UserState × ProgressResponse) :=
  match req.last_watched_position, req.total_watch_time with
  | some lwp, some twt =>
    .ok (applyProgressUpdate now lessonId lwp twt
      req.completion_percentage req.watch_session_data u)
  | _, _ => .error .invalidData

/-! ## POST /api/lessons/:id/complete -/

/-- Request body of the completion endpoint (`completion_percentage`
defaults to 100 in the destructuring but is never read afterwards: the
handler hard-codes 100 into the stored record). -/
structure CompleteRequest where
  final_watch_time : Option ℚ := none
  completion_percentage : ℚ := 100
  session_summary : Option String := none
  rating : Option ℚ := none
  feedback : Option String := none
deriving DecidableEq

/-- Response payload of the completion endpoint (`completion` block,
`user_stats` block and `new_badges` flattened into one record). -/
structure CompleteResponse where
  lesson_id : String
  completed_at : Nat
  final_watch_time : ℚ
  completion_percentage : ℚ
  was_already_completed : Bool
  current_streak : Nat
  longest_streak : Nat
  total_lessons_completed : Nat
  badges_earned : List String
  new_badges : List String
deriving DecidableEq

/-- The scan deciding whether some *other* lesson was already completed on
`today` (`hasCompletedTodayAlready`). -/
def hasCompletedTodayAlready (m : ProgressMap) (lessonId : String)
    (today : Nat) : Bool :=
  m.any (fun e =>
    match e.2.completed_at with
    | some t =>
      e.2.status == some .completed && dayOf t == today && e.1 != lessonId
    | none => false)

/-- Badge id "שיעור ראשון" (first lesson). -/
def badgeFirstLesson : String := "שיעור ראשון"

/-- Badge id "5 שיעורים" (5 lessons). -/
def badgeFiveLessons : String := "5 שיעורים"

/-- Badge id "10 שיעורים" (10 lessons). -/
def badgeTenLessons : String := "10 שיעורים"

/-- Badge id "רצף 3 ימים" (3-day streak). -/
def badgeStreakThree : String := "רצף 3 ימים"

/-- Badge id "רצף שבוע" (week streak). -/
def badgeStreakWeek : String := "רצף שבוע"

/-- Badge id "רצף חודש" (month streak). -/
def badgeStreakMonth : String := "רצף חודש"

/-- One badge check: push `name` onto both the badge set and the
newly-earned list when `cond` holds and the badge is not already present.
The pair is `(currentBadges, newBadgesEarned)`. -/
def awardBadge (cond : Bool) (name : String)
    (p : List String × List String) : List String × List String :=
  if cond && !(p.1.contains name) then (p.1 ++ [name], p.2 ++ [name]) else p

/-- The streak update of the completion handler, run only on a
non-duplicate completion.  Returns `(newStreak, newLongestStreak)`. -/
def updateStreak (u : UserState) (hasToday : Bool) (today : Nat) :
    Nat × Nat :=
  if !hasToday then
    let s1 : Nat :=
      match u.last_activity_date with
      | some d =>
        if d + 1 == today then u.current_streak + 1
        else if d == today then u.current_streak
        else 1
      | none => 1
    let s2 := if s1 == 0 then 1 else s1
    (s2, if s2 > u.longest_streak then s2 else u.longest_streak)
  else
    if u.current_streak == 0 then
      (1, if 1 > u.longest_streak then 1 else u.longest_streak)
    else (u.current_streak, u.longest_streak)

/-- The six sequential badge checks of the completion handler, against the
new totals. -/
def awardBadges (newTotal newStreak : Nat) (badges : List String) :
    List String × List String :=
  awardBadge (newStreak == 30) badgeStreakMonth
    (awardBadge (newStreak == 7) badgeStreakWeek
      (awardBadge (newStreak == 3) badgeStreakThree
        (awardBadge (newTotal == 10) badgeTenLessons
          (awardBadge (newTotal == 5) badgeFiveLessons
            (awardBadge (newTotal == 1) badgeFirstLesson (badges, []))))))

/-- The state mutation and response of `POST /:id/complete`. -/
def completeLesson (now : Nat) (lessonId : String) (req : CompleteRequest)
    (u : UserState) : UserState × CompleteResponse :=
  let lessonProgress := getProgress u.lesson_progress lessonId
  let wasAlreadyCompleted := lessonProgress.status == some .completed
  let finalWatchTime :=
    qOr req.final_watch_time (qOr lessonProgress.total_watch_time 0)
  let updatedProgress : LessonProgress :=
    { lessonProgress with
      status := some .completed,
      completed_at := some now,
      final_watch_time := some finalWatchTime,
      completion_percentage := some 100,
      rating := qOrOpt req.rating lessonProgress.rating,
      feedback := sOrOpt req.feedback lessonProgress.feedback,
      session_summary := sOrOpt req.session_summary lessonProgress.session_summary }
  let today := dayOf now
  let stats : Nat × Nat × Nat :=
    if wasAlreadyCompleted then
      (u.current_streak, u.longest_streak, u.total_lessons_completed)
    else
      let hasToday := hasCompletedTodayAlready u.lesson_progress lessonId today
      let sl := updateStreak u hasToday today
      (sl.1, sl.2, u.total_lessons_completed + 1)
  let newStreak := stats.1
  let newLongestStreak := stats.2.1
  let newTotalCompleted := stats.2.2
  let badgePair :=
    if wasAlreadyCompleted then (u.badges_earned, ([] : List String))
    else awardBadges newTotalCompleted newStreak u.badges_earned
  let u' : UserState :=
    { u with
      lesson_progress := setProgress u.lesson_progress lessonId updatedProgress,
      current_streak := newStreak,
      longest_streak := newLongestStreak,
      total_lessons_completed := newTotalCompleted,
      badges_earned := badgePair.1,
      last_activity_date := some today }
  (u', { lesson_id := lessonId,
         completed_at := now,
         final_watch_time := finalWatchTime,
         completion_percentage := 100,
         was_already_completed := wasAlreadyCompleted,
         current_streak := newStreak,
         longest_streak := newLongestStreak,
         total_lessons_completed := newTotalCompleted,
         badges_earned := badgePair.1,
         new_badges := badgePair.2 })

/-! ## Protected material access gateway
(`GET /:id/materials/:materialId/view`, `GET /:id/materials/:materialId/stream`,
`GET /:id/materials`) -/

/-- `type` discriminator of a stored support material. -/
inductive MaterialType where
  | link
  | file
deriving DecidableEq

/-- A stored support material, as written by `processSupportMaterials`:
link materials carry `url`; file materials carry `fileName`, the permanent
Cloudinary `secure_url` in `url` and the raw storage reference in
`cloudinaryPublicId`. -/
structure Material where
  id : String
  mtype : MaterialType
  name : String := ""
  fileName : String := ""
  url : Option String := none
  cloudinaryPublicId : Option String := none
deriving DecidableEq

/-- The lesson columns read by the material endpoints. -/
structure Lesson where
  support_materials : List Material := []
  is_published : Bool := false
  title : String := ""
deriving DecidableEq

/-- The authenticated requester attached to `req.user` by the
`authenticateToken` middleware. -/
structure AuthUser where
  id : String := ""
  role : String := "learner"
deriving DecidableEq

/-- Model of `generateSignedUrl` (`src/config/cloudinary.js`): a signed,
expiring reference scoped to one public id, kept distinct from the
permanent `secure_url` string. -/
structure SignedUrl where
  publicId : Option String
  expires_at : Nat
deriving DecidableEq

/-- `generateSignedUrl(material.cloudinaryPublicId, { expires_at })`. -/
def generateSignedUrl (publicId : Option String) (expiresAt : Nat) :
    SignedUrl :=
  { publicId := publicId, expires_at := expiresAt }

/-- Outcomes of the viewer-URL endpoint. -/
inductive ViewResult where
  | lessonNotFound
  | accessDenied
  | materialNotFound
  | invalidType
  | ok (materialId materialName fileName : String) (signedUrl : SignedUrl)
      (expiresAt : Nat)
deriving DecidableEq

/-- `GET /:id/materials/:materialId/view`: publish/role gate, then a
2-hour signed URL for a file material.  `lesson?` is the lesson lookup
result; `user` is `req.user` (this route runs behind
`authenticateToken`). -/
def viewMaterial (now : Nat) (user : AuthUser) (lesson? : Option Lesson)
    (materialId : String) : ViewResult :=
  match lesson? with
  | none => .lessonNotFound
  | some lesson =>
    if !lesson.is_published && user.role != "admin" then .accessDenied
    else
      match lesson.support_materials.find? (fun m => m.id == materialId) with
      | none => .materialNotFound
      | some material =>
        if material.mtype != .file then .invalidType
        else
          let expiresAt := now / 1000 + 60 * 60 * 2
          .ok materialId material.name material.fileName
            (generateSignedUrl material.cloudinaryPublicId expiresAt)
            expiresAt

/-- A bearer token as the stream route sees it: `decodes` is the result of
`jwt.verify` (`some userId` on success, `none` when verification throws). -/
structure Token where
  decodes : Option String
deriving DecidableEq

/-- Outcomes of the stream-proxy endpoint.  `internalError` is the 500
produced when the handler itself throws and the outer `catch` answers. -/
inductive StreamResult where
  | noToken
  | invalidToken
  | lessonNotFound
  | accessDenied
  | materialNotFound
  | ok (contentType fileName : String) (source : SignedUrl)
  | internalError
deriving DecidableEq

/-- The body of `GET /:id/materials/:materialId/stream`.  `reqUser` models
`req.user`.  The publish gate evaluates `req.user.role`; when `req.user`
is `undefined` this throws a TypeError which the outer `catch` turns into
a 500 (`internalError`). -/
def streamMaterial (now : Nat) (token? : Option Token)
    (reqUser : Option AuthUser) (lesson? : Option Lesson)
    (materialId : String) : StreamResult :=
  match token? with
  | none => .noToken
  | some token =>
    match token.decodes with
    | none => .invalidToken
    | some _userId =>
      match lesson? with
      | none => .lessonNotFound
      | some lesson =>
        let gate : Option StreamResult :=
          if lesson.is_published then none
          else
            match reqUser with
            | none => some .internalError
            | some usr =>
              if usr.role != "admin" then some .accessDenied else none
        match gate with
        | some r => r
        | none =>
          match lesson.support_materials.find? (fun m => m.id == materialId) with
          | some material =>
            if material.mtype != .file then .materialNotFound
            else
              .ok "application/pdf" material.fileName
                (generateSignedUrl material.cloudinaryPublicId
                  (now / 1000 + 60 * 5))
          | none => .materialNotFound

/-- The stream route as registered: it is the one material endpoint with
*no* `authenticateToken` middleware (it verifies the token manually), so
`req.user` is never populated — the handler always runs with
`reqUser = none`. -/
def streamRoute (now : Nat) (token? : Option Token) (lesson? : Option Lesson)
    (materialId : String) : StreamResult :=
  streamMaterial now token? none lesson? materialId

/-- One entry of the `materials` array returned by `GET /:id/materials`:
the JS spread `{...material, ...}` keeps every stored field (including
`url` and `cloudinaryPublicId`) and adds the access descriptors. -/
structure MaterialWithAccess where
  material : Material
  accessUrl : Option String := none
  viewUrl : Option String := none
  accessType : Option String := none
deriving DecidableEq

/-- `materialsWithAccess`: annotate each material with its access
descriptor. -/
def materialsWithAccess (lessonId : String) (ms : List Material) :
    List MaterialWithAccess :=
  ms.map (fun material =>
    match material.mtype with
    | .link =>
      { material := material,
        accessUrl := material.url,
        accessType := some "direct" }
    | .file =>
      { material := material,
        accessUrl := some ("/api/lessons/" ++ lessonId ++ "/materials/"
          ++ material.id ++ "/stream"),
        viewUrl := some ("/api/lessons/" ++ lessonId ++ "/materials/"
          ++ material.id ++ "/view"),
        accessType := some "protected" })

/-- Outcomes of the material-list endpoint. -/
inductive ListResult where
  | lessonNotFound
  | accessDenied
  | ok (lessonId lessonTitle : String) (materials : List MaterialWithAccess)
      (totalCount : Nat)
deriving DecidableEq

/-- `GET /:id/materials` (behind `authenticateToken`). -/
def listMaterials (user : AuthUser) (lessonId : String)
    (lesson? : Option Lesson) : ListResult :=
  match lesson? with
  | none => .lessonNotFound
  | some lesson =>
    if !lesson.is_published && user.role != "admin" then .accessDenied
    else
      let ms := materialsWithAccess lessonId lesson.support_materials
      .ok lessonId lesson.title ms ms.length

/-! ## Filename normalizer (`createSafeFilename`, `src/config/cloudinary.js`) -/

/-- Value of an ASCII hex digit, `none` for any other character (code
points: digits 48–57, lowercase a–f 97–102, uppercase A–F 65–70). -/
def hexDigitVal? (c : Char) : Option Nat :=
  let n := c.toNat
  if 48 ≤ n && n ≤ 57 then some (n - 48)
  else if 97 ≤ n && n ≤ 102 then some (n - 87)
  else if 65 ≤ n && n ≤ 70 then some (n - 55)
  else none

/-- UTF-8 encoding of one code point. -/
def utf8Bytes (c : Char) : List Nat :=
  let n := c.toNat
  if n < 0x80 then [n]
  else if n < 0x800 then [0xC0 + n / 64, 0x80 + n % 64]
  else if n < 0x10000 then
    [0xE0 + n / 4096, 0x80 + (n / 64) % 64, 0x80 + n % 64]
  else
    [0xF0 + n / 262144, 0x80 + (n / 4096) % 64, 0x80 + (n / 64) % 64,
     0x80 + n % 64]

/-- Percent-decoding pass of `decodeURIComponent`: each `%HH` escape
yields a raw byte, every other character contributes its UTF-8 bytes;
a `%` not followed by two hex digits is a `URIError` (`none`). -/
def percentDecodeBytes : List Char → Option (List Nat)
  | [] => some []
  | '%' :: c1 :: c2 :: rest =>
    match hexDigitVal? c1, hexDigitVal? c2 with
    | some h, some l =>
      (percentDecodeBytes rest).map (fun bs => (16 * h + l) :: bs)
    | _, _ => none
  | '%' :: _ => none
  | c :: rest => (percentDecodeBytes rest).map (fun bs => utf8Bytes c ++ bs)

/-- UTF-8 continuation byte test. -/
def contByte (b : Nat) : Bool := 0x80 ≤ b && b ≤ 0xBF

/-- Strict UTF-8 decoding (rejects overlong forms, surrogates and
out-of-range sequences, as `decodeURIComponent` does). -/
def utf8Decode : List Nat → Option (List Char)
  | [] => some []
  | b :: rest =>
    if b < 0x80 then (utf8Decode rest).map (fun cs => Char.ofNat b :: cs)
    else if b < 0xC2 then none
    else if b ≤ 0xDF then
      match rest with
      | b2 :: rest2 =>
        if contByte b2 then
          (utf8Decode rest2).map
            (fun cs => Char.ofNat ((b - 0xC0) * 64 + (b2 - 0x80)) :: cs)
        else none
      | [] => none
    else if b ≤ 0xEF then
      match rest with
      | b2 :: b3 :: rest3 =>
        if contByte b2 && contByte b3 then
          let cp := (b - 0xE0) * 4096 + (b2 - 0x80) * 64 + (b3 - 0x80)
          if 0x800 ≤ cp && !(0xD800 ≤ cp && cp ≤ 0xDFFF) then
            (utf8Decode rest3).map (fun cs => Char.ofNat cp :: cs)
          else none
        else none
      | _ => none
    else if b ≤ 0xF4 then
      match rest with
      | b2 :: b3 :: b4 :: rest4 =>
        if contByte b2 && contByte b3 && contByte b4 then
          let cp := (b - 0xF0) * 262144 + (b2 - 0x80) * 4096
            + (b3 - 0x80) * 64 + (b4 - 0x80)
          if 0x10000 ≤ cp && cp ≤ 0x10FFFF then
            (utf8Decode rest4).map (fun cs => Char.ofNat cp :: cs)
          else none
        else none
      | _ => none
    else none

/-- `decodeURIComponent(fileName)`: `none` models the thrown `URIError`
that sends the function into its `catch` branch. -/
def decodeURIComponentOpt (s : String) : Option String :=
  (percentDecodeBytes s.data).bind fun bs =>
    (utf8Decode bs).map fun cs => String.mk cs

/-- `decodedName.replace(/\.[^/.]+$/, "")`: drop a final `.ext` whose
extension is nonempty and contains no dot or slash. -/
def stripExtension (cs : List Char) : List Char :=
  let rev := cs.reverse
  let ext := rev.takeWhile (fun c => c != '.' && c != '/')
  match rev.drop ext.length with
  | '.' :: rest => if ext.isEmpty then cs else rest.reverse
  | _ => cs

/-- The Hebrew-to-Latin transliteration map of `createSafeFilename`. -/
def hebrewToLatin (c : Char) : Option String :=
  match c with
  | 'א' => some "a"
  | 'ב' => some "b"
  | 'ג' => some "g"
  | 'ד' => some "d"
  | 'ה' => some "h"
  | 'ו' => some "v"
  | 'ז' => some "z"
  | 'ח' => some "h"
  | 'ט' => some "t"
  | 'י' => some "y"
  | 'כ' => some "k"
  | 'ל' => some "l"
  | 'מ' => some "m"
  | 'ן' => some "n"
  | 'נ' => some "n"
  | 'ס' => some "s"
  | 'ע' => some "a"
  | 'פ' => some "p"
  | 'ץ' => some "tz"
  | 'צ' => some "tz"
  | 'ק' => some "k"
  | 'ר' => some "r"
  | 'ש' => some "sh"
  | 'ת' => some "t"
  | 'ך' => some "k"
  | 'ם' => some "m"
  | 'ף' => some "f"
  | _ => none

/-- `.replace(/[א-ת]/g, cb)`: transliterate every character in the Hebrew
letter block, with the callback's `|| 'x'` fallback. -/
def transliterateHebrew (cs : List Char) : List Char :=
  (cs.map (fun c =>
    if 'א' ≤ c && c ≤ 'ת' then ((hebrewToLatin c).getD "x").data
    else [c])).flatten

/-- The JS `\s` character class. -/
def isJsWhitespace (c : Char) : Bool :=
  c = ' ' || c = '\t' || c = '\n' || c = '\r' || c.toNat = 0xB
    || c.toNat = 0xC || c.toNat = 0xA0 || c.toNat = 0x1680
    || (0x2000 ≤ c.toNat && c.toNat ≤ 0x200A) || c.toNat = 0x2028
    || c.toNat = 0x2029 || c.toNat = 0x202F || c.toNat = 0x205F
    || c.toNat = 0x3000 || c.toNat = 0xFEFF

/-- Replace every maximal run of characters matching `p` by the single
character `rep` (models `replace(/X+/g, rep)`; note a run of length one is
also "replaced", by itself, so this one function covers both `\s+ → _`
and `_{2,} → _`). -/
def collapseRuns (p : Char → Bool) (rep : Char) (cs : List Char) :
    List Char :=
  (cs.foldl (fun acc c =>
    if p c then (if acc.2 then acc else (acc.1 ++ [rep], true))
    else (acc.1 ++ [c], false)) (([] : List Char), false)).1

/-- The JS `\w` character class (`[A-Za-z0-9_]`). -/
def isWordChar (c : Char) : Bool :=
  ('a' ≤ c && c ≤ 'z') || ('A' ≤ c && c ≤ 'Z') || ('0' ≤ c && c ≤ '9')
    || c = '_'

/-- `.replace(/[^\w\-]/g, '_')`, one character at a time. -/
def sanitizeChar (c : Char) : Char :=
  if isWordChar c || c = '-' then c else '_'

/-- The output alphabet guaranteed for storage keys: lowercase ASCII
letters, digits, underscore and hyphen. -/
def isSafeChar (c : Char) : Bool :=
  ('a' ≤ c && c ≤ 'z') || ('0' ≤ c && c ≤ '9') || c = '_' || c = '-'

/-- `.replace(/^[_\-]+|[_\-]+$/g, '')`. -/
def trimEdgeMarks (cs : List Char) : List Char :=
  ((cs.dropWhile (fun c => c = '_' || c = '-')).reverse.dropWhile
    (fun c => c = '_' || c = '-')).reverse

/-- The sanitization pipeline of `createSafeFilename` applied to the
decoded name: strip extension, transliterate Hebrew, collapse whitespace,
replace non-word characters, collapse repeated underscores, trim edge
marks, lowercase. -/
def safeStem (decoded : String) : String :=
  String.mk
    ((trimEdgeMarks
      (collapseRuns (fun c => c = '_') '_'
        ((collapseRuns isJsWhitespace '_'
          (transliterateHebrew (stripExtension decoded.data))).map
            sanitizeChar))).map Char.toLower)

/-- `createSafeFilename(fileName)` with the ambient clock made explicit:
`now` is `Date.now()` in milliseconds.  The `catch` branch (decoding
failure) and the short-output fallback both return
`file_` + `now % 1000`. -/
def createSafeFilename (now : Nat) (fileName : String) : String :=
  match decodeURIComponentOpt fileName with
  | none => "file_" ++ toString (now % 1000)
  | some decodedName =>
    let safeFilename := safeStem decodedName
    let finalFilename := if safeFilename = "" then "file" else safeFilename
    if finalFilename.length < 3 then "file_" ++ toString (now % 1000)
    else finalFilename

/-! ## Concrete fixtures used by counterexamples and witnesses -/

/-- A progress record that has reached `completed`. -/
def completedRecord : LessonProgress :=
  { status := some .completed, completion_percentage := some 100,
    completed_at := some 0 }

/-- A user who has completed lesson `L1`. -/
def c2User : UserState := { lesson_progress := [("L1", completedRecord)] }

/-- A user with a zero streak whose other lesson `A` was completed on day 5
(timestamp `432000005` ms). -/
def c4User : UserState :=
  { lesson_progress :=
      [("A", { status := some .completed, completed_at := some 432000005 })],
    current_streak := 0, longest_streak := 0, total_lessons_completed := 1,
    badges_earned := [badgeFirstLesson], last_activity_date := some 5 }

/-- A record completed at time 100 with finalization fields already set. -/
def c8Record : LessonProgress :=
  { status := some .completed, completed_at := some 100,
    final_watch_time := some 10, total_watch_time := some 50,
    completion_percentage := some 100, rating := some 4,
    feedback := some "great" }

/-- A user whose lesson `L1` carries `c8Record`. -/
def c8User : UserState :=
  { lesson_progress := [("L1", c8Record)], total_lessons_completed := 1 }

/-- The stored record after a second Complete for `L1` that supplies new
finalization values. -/
def c8Result : LessonProgress :=
  getProgress (completeLesson 432000000 "L1"
    { final_watch_time := some 99, rating := some 2,
      feedback := some "changed" } c8User).1.lesson_progress "L1"

/-- A user whose last activity was day 4, completing next on day 5. -/
def c4WitUser : UserState :=
  { current_streak := 6, longest_streak := 6, total_lessons_completed := 3,
    last_activity_date := some 4 }

/-- A user with an ongoing streak and no recorded activity. -/
def c10User : UserState :=
  { current_streak := 5, longest_streak := 5, total_lessons_completed := 7 }

/-- A stored file material carrying its permanent Cloudinary URL and raw
storage reference. -/
def exFileMaterial : Material :=
  { id := "m1", mtype := .file, name := "Handout", fileName := "דוח.pdf",
    url := some "https://res.cloudinary.com/demo/raw/private/lesson_materials/123_dvh.pdf",
    cloudinaryPublicId := some "lesson_materials/123_dvh" }

/-- An unpublished lesson holding `exFileMaterial`. -/
def unpublishedLesson : Lesson :=
  { support_materials := [exFileMaterial], is_published := false,
    title := "Draft" }

/-- A published lesson holding `exFileMaterial`. -/
def publishedLesson : Lesson :=
  { support_materials := [exFileMaterial], is_published := true,
    title := "Live" }

/-- An administrator requester. -/
def adminUser : AuthUser := { id := "u-admin", role := "admin" }

/-- A non-admin requester. -/
def learnerUser : AuthUser := { id := "u-1", role := "learner" }

/-- A token that verifies successfully. -/
def validToken : Token := { decodes := some "u-admin" }

/-! ## Helper lemmas -/

theorem getProgress_setProgress_self (m : ProgressMap) (k : String)
    (v : LessonProgress) : getProgress (setProgress m k v) k = v := by
  induction m with
  | nil => simp [setProgress, getProgress]
  | cons e rest ih =>
    by_cases h : e.1 == k
    · simp [setProgress, h, getProgress]
    · simpa [setProgress, h, getProgress, List.find?_cons] using ih

/-- Completing a lesson always leaves its stored record `completed`. -/
theorem complete_sets_completed (now : Nat) (lessonId : String)
    (req : CompleteRequest) (u : UserState) :
    (getProgress
      (completeLesson now lessonId req u).1.lesson_progress lessonId).status
      = some .completed := by
  simp [completeLesson, getProgress_setProgress_self]

theorem qOr_some_zero (v : ℚ) : qOr (some v) 0 = v := by
  by_cases h : v = 0 <;> simp [qOr, h]

theorem awardBadge_pres_append (c : Bool) (n : String) (base : List String)
    (pr : List String × List String) (h : pr.1 = base ++ pr.2) :
    (awardBadge c n pr).1 = base ++ (awardBadge c n pr).2 := by
  unfold awardBadge
  split
  · simp [h]
  · exact h

theorem awardBadge_nodup (c : Bool) (n : String)
    (pr : List String × List String) (h : pr.1.Nodup) :
    (awardBadge c n pr).1.Nodup := by
  unfold awardBadge
  split
  · rename_i hc
    have hn : n ∉ pr.1 := by
      rcases Bool.and_eq_true _ _ |>.mp hc with ⟨-, h2⟩
      simpa using h2
    simpa [List.nodup_append] using ⟨h, hn⟩
  · exact h

theorem awardBadge_snd_mem (x : String) (c : Bool) (n : String)
    (pr : List String × List String) :
    x ∈ (awardBadge c n pr).2 ↔
      x ∈ pr.2 ∨ (x = n ∧ c = true ∧ n ∉ pr.1) := by
  unfold awardBadge
  split
  · rename_i hc
    rcases Bool.and_eq_true _ _ |>.mp hc with ⟨h1, h2⟩
    simp_all
  · rename_i hc
    rw [Bool.and_eq_true] at hc
    push_neg at hc
    constructor
    · exact fun h => Or.inl h
    · rintro (h | ⟨rfl, h2, h3⟩)
      · exact h
      · exact absurd (by simpa using hc h2) h3

theorem awardBadge_fst_mem (x : String) (c : Bool) (n : String)
    (pr : List String × List String) :
    x ∈ (awardBadge c n pr).1 ↔
      x ∈ pr.1 ∨ (x = n ∧ c = true ∧ n ∉ pr.1) := by
  unfold awardBadge
  split
  · rename_i hc
    rcases Bool.and_eq_true _ _ |>.mp hc with ⟨h1, h2⟩
    simp_all
  · rename_i hc
    rw [Bool.and_eq_true] at hc
    push_neg at hc
    constructor
    · exact fun h => Or.inl h
    · rintro (h | ⟨rfl, h2, h3⟩)
      · exact h
      · exact absurd (by simpa using hc h2) h3

/-- The badge set after the six checks is the old set plus exactly the
newly earned badges, in order. -/
theorem awardBadges_append (T S : Nat) (old : List String) :
    (awardBadges T S old).1 = old ++ (awardBadges T S old).2 := by
  unfold awardBadges
  apply awardBadge_pres_append
  apply awardBadge_pres_append
  apply awardBadge_pres_append
  apply awardBadge_pres_append
  apply awardBadge_pres_append
  apply awardBadge_pres_append
  simp

/-- The badge checks never create a duplicate badge id. -/
theorem awardBadges_nodup (T S : Nat) (old : List String)
    (h : old.Nodup) : (awardBadges T S old).1.Nodup := by
  unfold awardBadges
  apply awardBadge_nodup
  apply awardBadge_nodup
  apply awardBadge_nodup
  apply awardBadge_nodup
  apply awardBadge_nodup
  apply awardBadge_nodup
  exact h

theorem mem_awardBadges_first (T S : Nat) (old : List String) :
    badgeFirstLesson ∈ (awardBadges T S old).2 ↔
      T = 1 ∧ badgeFirstLesson ∉ old := by
  simp [awardBadges, awardBadge_snd_mem, awardBadge_fst_mem,
    (by decide : badgeFirstLesson ≠ badgeFiveLessons),
    (by decide : badgeFirstLesson ≠ badgeTenLessons),
    (by decide : badgeFirstLesson ≠ badgeStreakThree),
    (by decide : badgeFirstLesson ≠ badgeStreakWeek),
    (by decide : badgeFirstLesson ≠ badgeStreakMonth)]

theorem mem_awardBadges_five (T S : Nat) (old : List String) :
    badgeFiveLessons ∈ (awardBadges T S old).2 ↔
      T = 5 ∧ badgeFiveLessons ∉ old := by
  simp [awardBadges, awardBadge_snd_mem, awardBadge_fst_mem,
    (by decide : badgeFiveLessons ≠ badgeFirstLesson),
    (by decide : badgeFiveLessons ≠ badgeTenLessons),
    (by decide : badgeFiveLessons ≠ badgeStreakThree),
    (by decide : badgeFiveLessons ≠ badgeStreakWeek),
    (by decide : badgeFiveLessons ≠ badgeStreakMonth)]

theorem mem_awardBadges_ten (T S : Nat) (old : List String) :
    badgeTenLessons ∈ (awardBadges T S old).2 ↔
      T = 10 ∧ badgeTenLessons ∉ old := by
  simp [awardBadges, awardBadge_snd_mem, awardBadge_fst_mem,
    (by decide : badgeTenLessons ≠ badgeFirstLesson),
    (by decide : badgeTenLessons ≠ badgeFiveLessons),
    (by decide : badgeTenLessons ≠ badgeStreakThree),
    (by decide : badgeTenLessons ≠ badgeStreakWeek),
    (by decide : badgeTenLessons ≠ badgeStreakMonth)]

theorem mem_awardBadges_streak3 (T S : Nat) (old : List String) :
    badgeStreakThree ∈ (awardBadges T S old).2 ↔
      S = 3 ∧ badgeStreakThree ∉ old := by
  simp [awardBadges, awardBadge_snd_mem, awardBadge_fst_mem,
    (by decide : badgeStreakThree ≠ badgeFirstLesson),
    (by decide : badgeStreakThree ≠ badgeFiveLessons),
    (by decide : badgeStreakThree ≠ badgeTenLessons),
    (by decide : badgeStreakThree ≠ badgeStreakWeek),
    (by decide : badgeStreakThree ≠ badgeStreakMonth)]

theorem mem_awardBadges_streak7 (T S : Nat) (old : List String) :
    badgeStreakWeek ∈ (awardBadges T S old).2 ↔
      S = 7 ∧ badgeStreakWeek ∉ old := by
  simp [awardBadges, awardBadge_snd_mem, awardBadge_fst_mem,
    (by decide : badgeStreakWeek ≠ badgeFirstLesson),
    (by decide : badgeStreakWeek ≠ badgeFiveLessons),
    (by decide : badgeStreakWeek ≠ badgeTenLessons),
    (by decide : badgeStreakWeek ≠ badgeStreakThree),
    (by decide : badgeStreakWeek ≠ badgeStreakMonth)]

theorem mem_awardBadges_streak30 (T S : Nat) (old : List String) :
    badgeStreakMonth ∈ (awardBadges T S old).2 ↔
      S = 30 ∧ badgeStreakMonth ∉ old := by
  simp [awardBadges, awardBadge_snd_mem, awardBadge_fst_mem,
    (by decide : badgeStreakMonth ≠ badgeFirstLesson),
    (by decide : badgeStreakMonth ≠ badgeFiveLessons),
    (by decide : badgeStreakMonth ≠ badgeTenLessons),
    (by decide : badgeStreakMonth ≠ badgeStreakThree),
    (by decide : badgeStreakMonth ≠ badgeStreakWeek)]

theorem digitChar_safe : ∀ m : Nat, m < 10 → isSafeChar (Nat.digitChar m) = true := by
  decide

theorem toDigitsCore_safe (f : Nat) :
    ∀ (n : Nat) (ds : List Char), (∀ c ∈ ds, isSafeChar c = true) →
      ∀ c ∈ Nat.toDigitsCore 10 f n ds, isSafeChar c = true := by
  induction f with
  | zero =>
    intro n ds hds c hc
    exact hds c (by simpa [Nat.toDigitsCore] using hc)
  | succ f ih =>
    intro n ds hds c hc
    have hdig : isSafeChar (Nat.digitChar (n % 10)) = true :=
      digitChar_safe _ (Nat.mod_lt _ (by norm_num))
    simp only [Nat.toDigitsCore] at hc
    split at hc
    · rcases List.mem_cons.mp hc with rfl | h
      · exact hdig
      · exact hds c h
    · refine ih _ _ ?_ c hc
      intro x hx
      rcases List.mem_cons.mp hx with rfl | h
      · exact hdig
      · exact hds x h

theorem repr_chars_safe (m : Nat) :
    ∀ c ∈ (Nat.repr m).data, isSafeChar c = true := by
  intro c hc
  simp only [Nat.repr, Nat.toDigits, List.asString] at hc
  exact toDigitsCore_safe (m + 1) m [] (by simp) c hc

theorem collapseRuns_foldl_chars (P : Char → Prop) (p : Char → Bool)
    (rep : Char) (hrep : P rep) :
    ∀ (cs : List Char) (acc : List Char × Bool),
      (∀ c ∈ cs, P c) → (∀ c ∈ acc.1, P c) →
      ∀ c ∈ (cs.foldl (fun acc c =>
        if p c then (if acc.2 then acc else (acc.1 ++ [rep], true))
        else (acc.1 ++ [c], false)) acc).1, P c := by
  intro cs
  induction cs with
  | nil =>
    intro acc h hacc c hc
    exact hacc c (by simpa using hc)
  | cons a l ih =>
    intro acc h hacc c hc
    rw [List.foldl_cons] at hc
    refine ih _ (fun x hx => h x (List.mem_cons_of_mem _ hx)) ?_ c hc
    intro x hx
    by_cases hpa : p a = true
    · simp only [hpa, if_true] at hx
      by_cases h2 : acc.2 = true
      · simp only [h2, if_true] at hx
        exact hacc x hx
      · simp only [h2] at hx
        simp only [Bool.false_eq_true, if_false] at hx
        rcases List.mem_append.mp hx with hx | hx
        · exact hacc x hx
        · rw [List.mem_singleton.mp hx]
          exact hrep
    · simp only [hpa] at hx
      simp only [Bool.false_eq_true, if_false] at hx
      rcases List.mem_append.mp hx with hx | hx
      · exact hacc x hx
      · rw [List.mem_singleton.mp hx]
        exact h a (List.mem_cons_self _ _)

theorem collapseRuns_forall (P : Char → Prop) (p : Char → Bool) (rep : Char)
    (cs : List Char) (hrep : P rep) (h : ∀ c ∈ cs, P c) :
    ∀ c ∈ collapseRuns p rep cs, P c := by
  intro c hc
  simp only [collapseRuns] at hc
  exact collapseRuns_foldl_chars P p rep hrep cs ([], false) h (by simp) c hc

theorem mem_trimEdgeMarks (cs : List Char) (c : Char)
    (h : c ∈ trimEdgeMarks cs) : c ∈ cs := by
  unfold trimEdgeMarks at h
  rw [List.mem_reverse] at h
  have h1 := List.Sublist.mem h (List.dropWhile_sublist _)
  rw [List.mem_reverse] at h1
  exact List.Sublist.mem h1 (List.dropWhile_sublist _)

theorem sanitizeChar_mid (c : Char) :
    (isWordChar (sanitizeChar c) || (sanitizeChar c = '-')) = true := by
  unfold sanitizeChar
  split
  · rename_i h
    exact h
  · decide

theorem toLower_safe (c : Char) (h : (isWordChar c || (c = '-')) = true) :
    isSafeChar (Char.toLower c) = true := by
  by_cases hU : 65 ≤ c.toNat ∧ c.toNat ≤ 90
  · have hr : (Char.toLower c).toNat = c.toNat + 32 := by
      unfold Char.toLower
      rw [if_pos ⟨hU.1, hU.2⟩]
      rw [Char.ofNat, dif_pos (Or.inl (by omega : c.toNat + 32 < 55296))]
      rfl
    have h97 : 97 ≤ (Char.toLower c).toNat := by omega
    have h122 : (Char.toLower c).toNat ≤ 122 := by omega
    simp only [isSafeChar, Bool.or_eq_true, Bool.and_eq_true,
      decide_eq_true_eq]
    exact Or.inl (Or.inl (Or.inl ⟨h97, h122⟩))
  · have hid : Char.toLower c = c := by
      unfold Char.toLower
      exact if_neg (fun hh => hU ⟨hh.1, hh.2⟩)
    rw [hid]
    simp only [isWordChar, Bool.or_eq_true, Bool.and_eq_true,
      decide_eq_true_eq] at h
    simp only [isSafeChar, Bool.or_eq_true, Bool.and_eq_true,
      decide_eq_true_eq]
    rcases h with (((⟨h1, h2⟩ | ⟨h1, h2⟩) | ⟨h1, h2⟩) | h1) | h1
    · exact Or.inl (Or.inl (Or.inl ⟨h1, h2⟩))
    · exact absurd ⟨h1, h2⟩ hU
    · exact Or.inl (Or.inl (Or.inr ⟨h1, h2⟩))
    · exact Or.inl (Or.inr h1)
    · exact Or.inr h1

theorem safeStem_chars (d : String) :
    ∀ c ∈ (safeStem d).data, isSafeChar c = true := by
  intro c hc
  have hc2 : c ∈ (trimEdgeMarks
      (collapseRuns (fun c => c = '_') '_'
        ((collapseRuns isJsWhitespace '_'
          (transliterateHebrew (stripExtension d.data))).map
            sanitizeChar))).map Char.toLower := hc
  rcases List.mem_map.mp hc2 with ⟨c0, hc0, rfl⟩
  apply toLower_safe
  have h1 := mem_trimEdgeMarks _ _ hc0
  refine collapseRuns_forall (fun x => (isWordChar x || (x = '-')) = true)
    _ '_' _ (by decide) ?_ c0 h1
  intro x hx
  rcases List.mem_map.mp hx with ⟨y, _, rfl⟩
  exact sanitizeChar_mid y

theorem fallback_chars (m : Nat) :
    ∀ c ∈ (("file_" : String) ++ toString m).data, isSafeChar c = true := by
  intro c hc
  rw [String.data_append] at hc
  rcases List.mem_append.mp hc with hc | hc
  · exact (by decide : ∀ x ∈ ("file_" : String).data, isSafeChar x = true) c hc
  · exact repr_chars_safe m c hc

theorem fallback_len (m : Nat) :
    3 ≤ (("file_" : String) ++ toString m).length := by
  rw [String.length_append]
  have h5 : ("file_" : String).length = 5 := rfl
  omega

/-! ## Claim theorems -/

/-- C1: completion is idempotent.  If the lesson's record is already
`completed` when Complete runs, the operation leaves `current_streak`,
`longest_streak`, `total_lessons_completed` and `badges_earned` unchanged
(in the stored state and in the returned `user_stats`) and answers
`was_already_completed = true`; consequently two Complete calls for the
same lesson increment `total_lessons_completed` exactly once. -/
theorem c1_completion_idempotent :
    (∀ (now : Nat) (lessonId : String) (req : CompleteRequest) (u : UserState),
      (getProgress u.lesson_progress lessonId).status = some .completed →
      (completeLesson now lessonId req u).1.current_streak = u.current_streak ∧
      (completeLesson now lessonId req u).1.longest_streak = u.longest_streak ∧
      (completeLesson now lessonId req u).1.total_lessons_completed
        = u.total_lessons_completed ∧
      (completeLesson now lessonId req u).1.badges_earned = u.badges_earned ∧
      (completeLesson now lessonId req u).2.was_already_completed = true ∧
      (completeLesson now lessonId req u).2.current_streak = u.current_streak ∧
      (completeLesson now lessonId req u).2.longest_streak = u.longest_streak ∧
      (completeLesson now lessonId req u).2.total_lessons_completed
        = u.total_lessons_completed ∧
      (completeLesson now lessonId req u).2.badges_earned = u.badges_earned ∧
      (completeLesson now lessonId req u).2.new_badges = []) ∧
    (∀ (now₁ now₂ : Nat) (lessonId : String) (req₁ req₂ : CompleteRequest)
        (u : UserState),
      (completeLesson now₂ lessonId req₂
          (completeLesson now₁ lessonId req₁ u).1).1.total_lessons_completed
        = (completeLesson now₁ lessonId req₁ u).1.total_lessons_completed) := by
  constructor
  · intro now lessonId req u h
    have hw : ((getProgress u.lesson_progress lessonId).status
        == some LessonStatus.completed) = true := by simp [h]
    simp [completeLesson, hw]
  · intro now₁ now₂ lessonId req₁ req₂ u
    set v := (completeLesson now₁ lessonId req₁ u).1 with hv
    have h : (getProgress v.lesson_progress lessonId).status
        = some .completed := by
      rw [hv]; exact complete_sets_completed now₁ lessonId req₁ u
    have hw : ((getProgress v.lesson_progress lessonId).status
        == some LessonStatus.completed) = true := by simp [h]
    simp [completeLesson, hw]

/-- Witness for C1 at a concrete state: a second Complete for the already
completed lesson `L1` leaves the completion count unchanged and reports
`was_already_completed`. -/
theorem c1_completion_idempotent_witness :
    (completeLesson 432000000 "L1" {} c2User).1.total_lessons_completed
      = c2User.total_lessons_completed ∧
    (completeLesson 432000000 "L1" {} c2User).2.was_already_completed
      = true := by
  have h := c1_completion_idempotent.1 432000000 "L1" {} c2User (by decide)
  exact ⟨h.2.2.1, h.2.2.2.2.1⟩

/-- C6: on a non-duplicate completion a badge is added exactly when the new
totals hit its threshold (`total_lessons_completed` ∈ {1,5,10} for the
count badges, `current_streak` ∈ {3,7,30} for the streak badges) and the
badge id is not already present; the stored badge list is the old list plus
exactly the returned `new_badges`, and no sequence of completions ever
duplicates a badge id. -/
theorem c6_badge_awarding :
    (∀ (now : Nat) (lessonId : String) (req : CompleteRequest) (u : UserState),
      (completeLesson now lessonId req u).1.badges_earned
        = u.badges_earned ++ (completeLesson now lessonId req u).2.new_badges) ∧
    (∀ (now : Nat) (lessonId : String) (req : CompleteRequest) (u : UserState),
      u.badges_earned.Nodup →
      (completeLesson now lessonId req u).1.badges_earned.Nodup) ∧
    (∀ (now : Nat) (lessonId : String) (req : CompleteRequest) (u : UserState),
      (getProgress u.lesson_progress lessonId).status ≠ some .completed →
      ((badgeFirstLesson ∈ (completeLesson now lessonId req u).2.new_badges ↔
        (completeLesson now lessonId req u).2.total_lessons_completed = 1 ∧
          badgeFirstLesson ∉ u.badges_earned) ∧
       (badgeFiveLessons ∈ (completeLesson now lessonId req u).2.new_badges ↔
        (completeLesson now lessonId req u).2.total_lessons_completed = 5 ∧
          badgeFiveLessons ∉ u.badges_earned) ∧
       (badgeTenLessons ∈ (completeLesson now lessonId req u).2.new_badges ↔
        (completeLesson now lessonId req u).2.total_lessons_completed = 10 ∧
          badgeTenLessons ∉ u.badges_earned) ∧
       (badgeStreakThree ∈ (completeLesson now lessonId req u).2.new_badges ↔
        (completeLesson now lessonId req u).2.current_streak = 3 ∧
          badgeStreakThree ∉ u.badges_earned) ∧
       (badgeStreakWeek ∈ (completeLesson now lessonId req u).2.new_badges ↔
        (completeLesson now lessonId req u).2.current_streak = 7 ∧
          badgeStreakWeek ∉ u.badges_earned) ∧
       (badgeStreakMonth ∈ (completeLesson now lessonId req u).2.new_badges ↔
        (completeLesson now lessonId req u).2.current_streak = 30 ∧
          badgeStreakMonth ∉ u.badges_earned))) := by
  refine ⟨?_, ?_, ?_⟩
  · intro now lessonId req u
    by_cases hw : ((getProgress u.lesson_progress lessonId).status
        == some LessonStatus.completed) = true
    · simp [completeLesson, hw]
    · simp [completeLesson, hw, awardBadges_append]
  · intro now lessonId req u h
    by_cases hw : ((getProgress u.lesson_progress lessonId).status
        == some LessonStatus.completed) = true
    · simpa [completeLesson, hw] using h
    · simpa [completeLesson, hw] using awardBadges_nodup _ _ _ h
  · intro now lessonId req u h
    have hw : ((getProgress u.lesson_progress lessonId).status
        == some LessonStatus.completed) = false := beq_eq_false_iff_ne.mpr h
    simp [completeLesson, hw, mem_awardBadges_first, mem_awardBadges_five,
      mem_awardBadges_ten, mem_awardBadges_streak3, mem_awardBadges_streak7,
      mem_awardBadges_streak30]

/-- Witness for C6 at a concrete state: a fresh user's first completion
keeps the badge list duplicate-free and earns the first-lesson badge. -/
theorem c6_badge_awarding_witness :
    (completeLesson 0 "L1" {} ({} : UserState)).1.badges_earned.Nodup ∧
    (badgeFirstLesson ∈ (completeLesson 0 "L1" {} ({} : UserState)).2.new_badges ↔
      (completeLesson 0 "L1" {} ({} : UserState)).2.total_lessons_completed = 1 ∧
        badgeFirstLesson ∉ ({} : UserState).badges_earned) := by
  exact ⟨c6_badge_awarding.2.1 0 "L1" {} {} (by decide),
    (c6_badge_awarding.2.2 0 "L1" {} {} (by decide)).1⟩

/-- C2 evaluated at the failing input: lesson `L1` is stored `completed`
(with `completion_percentage` 100), yet a progress update whose incoming
`completion_percentage` is 50 stores `status = in_progress` while the
merged percentage stays 100 — the handler derives `status` from the raw
incoming percentage, so `completed` is not terminal. -/
theorem c2_status_regression :
    (getProgress c2User.lesson_progress "L1").status = some .completed ∧
    ((updateProgress 432000000 "L1"
      { last_watched_position := some 10, total_watch_time := some 20,
        completion_percentage := some 50 } c2User).toOption.map
      (fun r => ((getProgress r.1.lesson_progress "L1").status,
                 (getProgress r.1.lesson_progress "L1").completion_percentage)))
      = some (some .in_progress, some 100) := by decide

/-- C3: the progress merge is monotonic.  Each accepted update stores
`max(incoming, previously stored)` into `last_watched_position` and
`total_watch_time` and the `[0,100]`-clamped max into
`completion_percentage`; the stored values never decrease, and the
percentage stays in `[0,100]`, so the invariant holds along any sequence
of accepted updates. -/
theorem c3_monotonic_merge :
    (∀ (lwp twt : ℚ) (cp : Option ℚ) (wsd : Option String)
        (p : LessonProgress),
      (mergeProgress lwp twt cp wsd p).last_watched_position
        = some (max lwp (qOr p.last_watched_position 0)) ∧
      (mergeProgress lwp twt cp wsd p).total_watch_time
        = some (max twt (qOr p.total_watch_time 0)) ∧
      (mergeProgress lwp twt cp wsd p).completion_percentage
        = some (min (max (qOr cp 0) (qOr p.completion_percentage 0)) 100)) ∧
    (∀ (lwp twt : ℚ) (cp : Option ℚ) (wsd : Option String)
        (p : LessonProgress),
      qOr p.last_watched_position 0
        ≤ qOr (mergeProgress lwp twt cp wsd p).last_watched_position 0 ∧
      qOr p.total_watch_time 0
        ≤ qOr (mergeProgress lwp twt cp wsd p).total_watch_time 0 ∧
      (qOr p.completion_percentage 0 ≤ 100 →
        qOr p.completion_percentage 0
          ≤ qOr (mergeProgress lwp twt cp wsd p).completion_percentage 0)) ∧
    (∀ (lwp twt : ℚ) (cp : Option ℚ) (wsd : Option String)
        (p : LessonProgress),
      0 ≤ qOr p.completion_percentage 0 →
      0 ≤ qOr (mergeProgress lwp twt cp wsd p).completion_percentage 0 ∧
        qOr (mergeProgress lwp twt cp wsd p).completion_percentage 0 ≤ 100) ∧
    (∀ (now : Nat) (lessonId : String) (lwp twt : ℚ) (cp : Option ℚ)
        (wsd : Option String) (u : UserState),
      getProgress
        (applyProgressUpdate now lessonId lwp twt cp wsd u).1.lesson_progress
        lessonId
        = mergeProgress lwp twt cp wsd (getProgress u.lesson_progress lessonId)) := by
  refine ⟨?_, ?_, ?_, ?_⟩
  · intro lwp twt cp wsd p
    refine ⟨rfl, rfl, rfl⟩
  · intro lwp twt cp wsd p
    refine ⟨?_, ?_, ?_⟩
    · simp [mergeProgress, qOr_some_zero]
    · simp [mergeProgress, qOr_some_zero]
    · intro h
      simp only [mergeProgress, qOr_some_zero]
      exact le_min (le_max_right _ _) h
  · intro lwp twt cp wsd p h
    constructor
    · simp only [mergeProgress, qOr_some_zero]
      exact le_min (le_trans h (le_max_right _ _)) (by norm_num)
    · simp only [mergeProgress, qOr_some_zero]
      exact min_le_right _ _
  · intro now lessonId lwp twt cp wsd u
    simp [applyProgressUpdate, getProgress_setProgress_self]

/-- Witness for C3 at a concrete record: merging an update with incoming
percentage 50 into the completed record keeps the stored percentage at
least as high. -/
theorem c3_monotonic_merge_witness :
    qOr completedRecord.completion_percentage 0
      ≤ qOr (mergeProgress 10 20 (some 50) none
          completedRecord).completion_percentage 0 := by
  exact (c3_monotonic_merge.2.1 10 20 (some 50) none completedRecord).2.2
    (by decide)

/-- C4 amended: on a first-time completion, with `last_activity_date` equal
to yesterday and no other lesson completed today the streak increments;
with a gap of at least two days (or no previous activity) it resets to 1;
when another lesson was already completed today it is unchanged *unless it
was 0*, in which case the handler repairs it to 1. -/
theorem c4_streak_amended :
    (∀ (now : Nat) (lessonId : String) (req : CompleteRequest)
        (u : UserState) (d : Nat),
      (getProgress u.lesson_progress lessonId).status ≠ some .completed →
      u.last_activity_date = some d →
      d + 1 = dayOf now →
      hasCompletedTodayAlready u.lesson_progress lessonId (dayOf now) = false →
      (completeLesson now lessonId req u).1.current_streak
        = u.current_streak + 1) ∧
    (∀ (now : Nat) (lessonId : String) (req : CompleteRequest) (u : UserState),
      (getProgress u.lesson_progress lessonId).status ≠ some .completed →
      (u.last_activity_date = none ∨
        ∃ d, u.last_activity_date = some d ∧ d + 2 ≤ dayOf now) →
      hasCompletedTodayAlready u.lesson_progress lessonId (dayOf now) = false →
      (completeLesson now lessonId req u).1.current_streak = 1) ∧
    (∀ (now : Nat) (lessonId : String) (req : CompleteRequest) (u : UserState),
      (getProgress u.lesson_progress lessonId).status ≠ some .completed →
      hasCompletedTodayAlready u.lesson_progress lessonId (dayOf now) = true →
      (completeLesson now lessonId req u).1.current_streak
        = if u.current_streak = 0 then 1 else u.current_streak) := by
  refine ⟨?_, ?_, ?_⟩
  · intro now lessonId req u d h hlast hd hhas
    have hw : ((getProgress u.lesson_progress lessonId).status
        == some LessonStatus.completed) = false := beq_eq_false_iff_ne.mpr h
    simp [completeLesson, hw, hhas, updateStreak, hlast, hd]
  · intro now lessonId req u h hgap hhas
    have hw : ((getProgress u.lesson_progress lessonId).status
        == some LessonStatus.completed) = false := beq_eq_false_iff_ne.mpr h
    rcases hgap with hnone | ⟨d, hlast, hd⟩
    · simp [completeLesson, hw, hhas, updateStreak, hnone]
    · have h1 : (d + 1 == dayOf now) = false :=
        beq_eq_false_iff_ne.mpr (by omega)
      have h2 : (d == dayOf now) = false :=
        beq_eq_false_iff_ne.mpr (by omega)
      simp [completeLesson, hw, hhas, updateStreak, hlast, h1, h2]
  · intro now lessonId req u h hhas
    have hw : ((getProgress u.lesson_progress lessonId).status
        == some LessonStatus.completed) = false := beq_eq_false_iff_ne.mpr h
    by_cases hz : u.current_streak = 0 <;>
      simp [completeLesson, hw, hhas, updateStreak, hz]

/-- The claim's same-day clause is false as stated: a first-time completion
of lesson `B` on a day when lesson `A` was already completed changes
`current_streak` from 0 to 1 instead of leaving it unchanged. -/
theorem c4_streak_counterexample :
    c4User.current_streak = 0 ∧
    (getProgress c4User.lesson_progress "B").status ≠ some .completed ∧
    hasCompletedTodayAlready c4User.lesson_progress "B" (dayOf 432000000)
      = true ∧
    (completeLesson 432000000 "B" {} c4User).1.current_streak = 1 := by
  decide

/-- Witness for C4's amended theorem at a concrete state: last activity on
day 4, first completion on day 5 extends the streak from 6 to 7. -/
theorem c4_streak_amended_witness :
    (completeLesson 432000000 "L" {} c4WitUser).1.current_streak
      = c4WitUser.current_streak + 1 := by
  exact c4_streak_amended.1 432000000 "L" {} c4WitUser 4
    (by decide) (by decide) (by decide) (by decide)

/-- C5 evaluated: for an unpublished lesson the viewer-URL and list
endpoints behave as claimed (non-admin denied, admin succeeds), but the
stream proxy contradicts the claim: it registers no authentication
middleware, so `req.user` is undefined and the publish gate's
`req.user.role` access throws, turning *every* request for an unpublished
lesson — admin tokens included — into a 500 internal error instead of an
authorization error or success. -/
theorem c5_material_gating_bug :
    viewMaterial 0 learnerUser (some unpublishedLesson) "m1" = .accessDenied ∧
    listMaterials learnerUser "L1" (some unpublishedLesson) = .accessDenied ∧
    ((match viewMaterial 0 adminUser (some unpublishedLesson) "m1" with
      | .ok _ _ _ _ _ => true
      | _ => false) = true) ∧
    ((match listMaterials adminUser "L1" (some unpublishedLesson) with
      | .ok _ _ _ _ => true
      | _ => false) = true) ∧
    (∀ (now : Nat) (uid materialId : String),
      streamRoute now (some { decodes := some uid }) (some unpublishedLesson)
        materialId = .internalError) := by
  refine ⟨by decide, by decide, by decide, by decide, ?_⟩
  intro now uid materialId
  simp [streamRoute, streamMaterial, unpublishedLesson]

/-- C7 evaluated: the material-list response spreads the stored material
record, so the returned entry still carries the permanent Cloudinary
`secure_url` and the raw `cloudinaryPublicId` storage reference alongside
the access descriptors. -/
theorem c7_raw_reference_leak :
    listMaterials learnerUser "L1" (some publishedLesson)
      = .ok "L1" "Live"
          [{ material := exFileMaterial,
             accessUrl := some "/api/lessons/L1/materials/m1/stream",
             viewUrl := some "/api/lessons/L1/materials/m1/view",
             accessType := some "protected" }] 1 ∧
    exFileMaterial.url
      = some "https://res.cloudinary.com/demo/raw/private/lesson_materials/123_dvh.pdf" ∧
    exFileMaterial.cloudinaryPublicId = some "lesson_materials/123_dvh" := by
  decide

/-- The claim that `completed_at`, `final_watch_time`, `rating` and
`feedback` are immutable after completion is false: a second Complete for
the already-completed `L1` that supplies new values refreshes
`completed_at` and overwrites the other three. -/
theorem c8_finalization_overwritten :
    c8Record.completed_at = some 100 ∧
    c8Record.final_watch_time = some 10 ∧
    c8Record.rating = some 4 ∧
    c8Record.feedback = some "great" ∧
    (getProgress c8User.lesson_progress "L1").status = some .completed ∧
    c8Result.completed_at = some 432000000 ∧
    c8Result.final_watch_time = some 99 ∧
    c8Result.rating = some 2 ∧
    c8Result.feedback = some "changed" := by
  decide

/-- C8 amended: on a second Complete of an already-completed lesson,
`completed_at` is refreshed to the request time; `final_watch_time`,
`rating` and `feedback` are overwritten by supplied truthy values, while an
omitted `rating`/`feedback` keeps its previous value and an omitted
`final_watch_time` falls back to the stored `total_watch_time`. -/
theorem c8_finalization_amended :
    ∀ (now : Nat) (lessonId : String) (req : CompleteRequest) (u : UserState),
      (getProgress u.lesson_progress lessonId).status = some .completed →
      (getProgress (completeLesson now lessonId req u).1.lesson_progress
          lessonId).completed_at = some now ∧
      (req.final_watch_time = none →
        (getProgress (completeLesson now lessonId req u).1.lesson_progress
            lessonId).final_watch_time
          = some (qOr (getProgress u.lesson_progress lessonId).total_watch_time 0)) ∧
      (∀ v : ℚ, req.final_watch_time = some v → v ≠ 0 →
        (getProgress (completeLesson now lessonId req u).1.lesson_progress
            lessonId).final_watch_time = some v) ∧
      (req.rating = none →
        (getProgress (completeLesson now lessonId req u).1.lesson_progress
            lessonId).rating = (getProgress u.lesson_progress lessonId).rating) ∧
      (∀ v : ℚ, req.rating = some v → v ≠ 0 →
        (getProgress (completeLesson now lessonId req u).1.lesson_progress
            lessonId).rating = some v) ∧
      (req.feedback = none →
        (getProgress (completeLesson now lessonId req u).1.lesson_progress
            lessonId).feedback = (getProgress u.lesson_progress lessonId).feedback) ∧
      (∀ s : String, req.feedback = some s → s ≠ "" →
        (getProgress (completeLesson now lessonId req u).1.lesson_progress
            lessonId).feedback = some s) := by
  intro now lessonId req u h
  simp only [completeLesson, getProgress_setProgress_self]
  refine ⟨by trivial, ?_, ?_, ?_, ?_, ?_, ?_⟩
  · intro hf
    simp [qOr, hf]
  · intro v hf hv
    simp [qOr, hf, hv]
  · intro hr
    simp [qOrOpt, hr]
  · intro v hr hv
    simp [qOrOpt, hr, hv]
  · intro hfb
    simp [sOrOpt, hfb]
  · intro s hfb hs
    simp [sOrOpt, hfb, hs]

/-- Witness for C8's amended theorem at the concrete second completion. -/
theorem c8_finalization_amended_witness :
    (getProgress (completeLesson 432000000 "L1"
        { final_watch_time := some 99, rating := some 2,
          feedback := some "changed" } c8User).1.lesson_progress
      "L1").completed_at = some 432000000 := by
  exact (c8_finalization_amended 432000000 "L1"
    { final_watch_time := some 99, rating := some 2,
      feedback := some "changed" } c8User (by decide)).1

/-- C10: every successful Start, every accepted progress update and a
Complete of an already-completed lesson all stamp `last_activity_date`
with the current day; concretely, a mere Start on day 3 (with nothing
completed) followed by a first completion on day 4 extends the streak. -/
theorem c10_last_activity_overwritten :
    (∀ (now : Nat) (lessonId sessionId : String) (u : UserState),
      (startLesson now lessonId sessionId u).1.last_activity_date
        = some (dayOf now)) ∧
    (∀ (now : Nat) (lessonId : String) (lwp twt : ℚ) (cp : Option ℚ)
        (wsd : Option String) (u : UserState),
      (applyProgressUpdate now lessonId lwp twt cp wsd u).1.last_activity_date
        = some (dayOf now)) ∧
    (∀ (now : Nat) (lessonId : String) (req : CompleteRequest) (u : UserState),
      (getProgress u.lesson_progress lessonId).status = some .completed →
      (completeLesson now lessonId req u).1.last_activity_date
        = some (dayOf now)) ∧
    ((startLesson (3 * msPerDay + 5) "L" "s1" c10User).1.last_activity_date
      = some 3 ∧
     (getProgress (startLesson (3 * msPerDay + 5) "L" "s1"
        c10User).1.lesson_progress "L").status = some .in_progress ∧
     (completeLesson (4 * msPerDay) "L" {}
        (startLesson (3 * msPerDay + 5) "L" "s1" c10User).1).1.current_streak
       = c10User.current_streak + 1) := by
  refine ⟨?_, ?_, ?_, by decide⟩
  · intro now lessonId sessionId u
    simp [startLesson]
  · intro now lessonId lwp twt cp wsd u
    simp [applyProgressUpdate]
  · intro now lessonId req u h
    simp [completeLesson]

/-- Witness for C10 at a concrete state: a duplicate Complete on `L1`
still stamps `last_activity_date` with the request's day. -/
theorem c10_last_activity_overwritten_witness :
    (completeLesson 432000000 "L1" {} c2User).1.last_activity_date
      = some (dayOf 432000000) := by
  exact c10_last_activity_overwritten.2.2.1 432000000 "L1" {} c2User
    (by decide)

/-- The determinism half of the claim is false: for the filename `"ab"`
(sanitized stem shorter than 3 characters) the normalizer falls back to
`file_` + `Date.now() % 1000`, so two invocations at different times
produce different storage keys. -/
theorem c9_normalizer_counterexample :
    createSafeFilename 0 "ab" = "file_0" ∧
    createSafeFilename 1 "ab" = "file_1" ∧
    createSafeFilename 0 "ab" ≠ createSafeFilename 1 "ab" := by
  decide

/-- C9 amended: every output of the normalizer is at least 3 characters
long and drawn from the ASCII-safe alphabet `[a-z0-9_-]`; the function is
deterministic (time-independent) whenever decoding succeeds and the
sanitized stem is empty or at least 3 characters long — but for decodable
names whose nonempty stem is shorter than 3 characters, and for undecodable
names, the output embeds the current time and is not deterministic. -/
theorem c9_normalizer_amended :
    (∀ (now : Nat) (fileName : String),
      3 ≤ (createSafeFilename now fileName).length) ∧
    (∀ (now : Nat) (fileName : String),
      ∀ c ∈ (createSafeFilename now fileName).data, isSafeChar c = true) ∧
    (∀ (fileName d : String) (now₁ now₂ : Nat),
      decodeURIComponentOpt fileName = some d →
      (safeStem d = "" ∨ 3 ≤ (safeStem d).length) →
      createSafeFilename now₁ fileName = createSafeFilename now₂ fileName) := by
  refine ⟨?_, ?_, ?_⟩
  · intro now fileName
    unfold createSafeFilename
    cases hdec : decodeURIComponentOpt fileName with
    | none => exact fallback_len _
    | some d =>
      dsimp only
      by_cases he : safeStem d = ""
      · rw [if_pos he, if_neg (by decide : ¬ ("file" : String).length < 3)]
        decide
      · rw [if_neg he]
        by_cases hl : (safeStem d).length < 3
        · rw [if_pos hl]
          exact fallback_len _
        · rw [if_neg hl]
          omega
  · intro now fileName c hc
    unfold createSafeFilename at hc
    cases hdec : decodeURIComponentOpt fileName with
    | none =>
      rw [hdec] at hc
      exact fallback_chars _ c hc
    | some d =>
      rw [hdec] at hc
      dsimp only at hc
      by_cases hlen :
          (if safeStem d = "" then "file" else safeStem d).length < 3
      · rw [if_pos hlen] at hc
        exact fallback_chars _ c hc
      · rw [if_neg hlen] at hc
        by_cases he : safeStem d = ""
        · rw [if_pos he] at hc
          exact (by decide :
            ∀ x ∈ ("file" : String).data, isSafeChar x = true) c hc
        · rw [if_neg he] at hc
          exact safeStem_chars d c hc
  · intro fileName d now₁ now₂ hdec hcond
    unfold createSafeFilename
    rw [hdec]
    dsimp only
    rcases hcond with he | hl
    · simp [he, (by decide : ¬ ("file" : String).length < 3)]
    · have hne : safeStem d ≠ "" := by
        intro h0
        rw [h0] at hl
        simp at hl
      have hge : ¬ (safeStem d).length < 3 := by omega
      simp [hne, hge]

/-- Witness for C9's amended theorem at a concrete input whose stem is
long enough: the key for `summary.pdf` is time-independent and at least 3
characters long. -/
theorem c9_normalizer_amended_witness :
    createSafeFilename 0 "summary.pdf" = createSafeFilename 1 "summary.pdf" ∧
    3 ≤ (createSafeFilename 0 "summary.pdf").length := by
  exact ⟨c9_normalizer_amended.2.2 "summary.pdf" "summary.pdf" 0 1
      (by decide) (Or.inr (by decide)),
    c9_normalizer_amended.1 0 "summary.pdf"⟩

end XFactor
